import Mathlib

/-!
Shallow embedding of the client-side data-acquisition pipeline of the
Social-Media-Sentiment-Analysis-Dashboard (src/sentient/src/App.js):
the query builder (`fetchPosts`, lines 289-346), the date helper
(`dateToTimestamp`), the fetch/retry engine (`enhancedFetch`), the result
reconciler (the state application at lines 352-364), the client-side sort
(`requestSort`), the statistics projection (`statsData`) and the numeric
filter-input validation (`handleFilterChange`).

JavaScript numbers are modelled as `ℚ` (integers where the data model calls
for integers embed into `ℚ`), machine strings as `String`, and `undefined` /
`null` as `Option`.  Browser built-ins that the code calls (`new Date` on the
ISO `YYYY-MM-DD` strings produced by the date inputs, `localeCompare`,
`toLowerCase`) are modelled explicitly next to their uses.
-/

/-- A Reddit post as delivered by the API (spec §3).  Numeric fields are
JavaScript numbers, modelled as `ℚ`. -/
structure Post where
  id : Nat := 0
  title : String := ""
  author : String := ""
  subreddit : String := ""
  score : ℚ := 0
  num_comments : ℚ := 0
  created_utc : ℚ := 0
  upvote_ratio : ℚ := 0
  url : String := ""
  selftext : String := ""
  sentiment_compound : ℚ := 0
  sentiment_pos : ℚ := 0
  sentiment_neu : ℚ := 0
  sentiment_neg : ℚ := 0
deriving DecidableEq, Repr

/-- The `filters` state object of App.js (lines 78-88).  All fields are
strings; the empty string is the "absent" value (JS falsiness on strings). -/
structure FilterState where
  minScore : String := ""
  maxScore : String := ""
  minComments : String := ""
  maxComments : String := ""
  sentiment : String := ""
  searchTerm : String := ""
  startDate : String := ""
  endDate : String := ""
  subreddit : String := ""
deriving DecidableEq, Repr

/-- The `searchOptions` state object of App.js (lines 136-143). -/
structure SearchOptions where
  searchMethod : String := "database"
  sortMethod : String := "relevance"
  timeFilter : String := "all"
  includeComments : Bool := false
  autoRefresh : Bool := false
  refreshInterval : Nat := 60
deriving DecidableEq, Repr

/-- The `sortConfig` state object of App.js (lines 99-102). -/
structure SortConfig where
  key : String := "created_utc"
  direction : String := "desc"
deriving DecidableEq, Repr

/-- Gregorian leap-year test, as used by ISO date validation. -/
def isLeapYear (y : Nat) : Bool :=
  (y % 4 == 0 && y % 100 != 0) || y % 400 == 0

/-- Number of days in month `m` of year `y`. -/
def daysInMonth (y m : Nat) : Nat :=
  if m == 2 then (if isLeapYear y then 29 else 28)
  else if m == 4 || m == 6 || m == 9 || m == 11 then 30
  else 31

/-- Days from 1970-01-01 to the civil date `y-m-d` (proleptic Gregorian,
the standard era-based civil-calendar computation). -/
def daysSinceEpoch (y m d : Nat) : Int :=
  let yShift : Nat := if m ≤ 2 then y - 1 else y
  let era : Nat := yShift / 400
  let yoe : Nat := yShift % 400
  let mp : Nat := if m > 2 then m - 3 else m + 9
  let doy : Nat := (153 * mp + 2) / 5 + (d - 1)
  let doe : Nat := yoe * 365 + yoe / 4 - yoe / 100 + doy
  (era : Int) * 146097 + (doe : Int) - 719468

/-- Splits a character list at each `'-'` (the separator structure of an ISO
date string); `acc` holds the current chunk reversed. -/
def splitDash : List Char → List Char → List (List Char)
  | [], acc => [acc.reverse]
  | c :: rest, acc =>
    if c = '-' then acc.reverse :: splitDash rest []
    else splitDash rest (c :: acc)

/-- Decimal value of a list of digit characters. -/
def digitsToNat (cs : List Char) : Nat :=
  cs.foldl (fun n c => n * 10 + (c.toNat - 48)) 0

/-- Model of the JavaScript `new Date(s)` / `getTime` pipeline restricted to
the ISO `YYYY-MM-DD` date-only strings that the dashboard's date inputs
produce: such a string parses to the Unix-second timestamp of UTC midnight of
that calendar day; every other string behaves as `Invalid Date` (`none`). -/
def parseDateString (s : String) : Option Int :=
  match splitDash s.toList [] with
  | [ys, ms, ds] =>
    if ys.length == 4 && ms.length == 2 && ds.length == 2
        && ys.all Char.isDigit && ms.all Char.isDigit && ds.all Char.isDigit then
      let y := digitsToNat ys
      let m := digitsToNat ms
      let d := digitsToNat ds
      if 1 ≤ m && m ≤ 12 && 1 ≤ d && d ≤ daysInMonth y m then
        some (86400 * daysSinceEpoch y m d)
      else none
    else none
  | _ => none

/-- App.js lines 270-274: `dateToTimestamp` returns `null` for a falsy
argument or an unparsable date, and `Math.floor(date.getTime()/1000)`
otherwise. -/
def dateToTimestamp (s : String) : Option Int :=
  if s = "" then none else parseDateString s

/-- The two endpoints the query builder can target (App.js lines 291, 300). -/
inductive Endpoint where
  | posts
  | search
deriving DecidableEq, Repr

/-- `params.append(k, v)` guarded by JS string truthiness:
appends the pair only when `v` is non-empty. -/
def strParam (k v : String) : List (String × String) :=
  if v ≠ "" then [(k, v)] else []

/-- `params.append(k, ts)` guarded by JS number truthiness on a
possibly-null timestamp (`if (startTs)`): appends only when the value is
present and nonzero; `shift` is added to the timestamp first in the reading
position (`endTs + 86400`). -/
def tsParam (k : String) (t? : Option Int) (shift : Int) : List (String × String) :=
  match t? with
  | some t => if t ≠ 0 then [(k, toString (t + shift))] else []
  | none => []

/-- The query-building portion of `fetchPosts` (App.js lines 289-346):
chooses the endpoint and assembles the `URLSearchParams` pairs in source
order. -/
def buildRequest (f : FilterState) (so : SearchOptions) (sc : SortConfig)
    (resetPage : Bool) (currentPage postsPerPage : Nat) :
    Endpoint × List (String × String) :=
  if f.searchTerm ≠ "" ∧ so.searchMethod = "live" then
    (Endpoint.search,
      [("q", f.searchTerm), ("sort", so.sortMethod), ("time_filter", so.timeFilter)]
      ++ (if so.includeComments then [("include_comments", "true")] else [])
      ++ strParam "subreddit" f.subreddit)
  else
    (Endpoint.posts,
      strParam "min_score" f.minScore
      ++ strParam "max_score" f.maxScore
      ++ strParam "min_comments" f.minComments
      ++ strParam "max_comments" f.maxComments
      ++ strParam "sentiment" f.sentiment
      ++ strParam "subreddit" f.subreddit
      ++ strParam "search" f.searchTerm
      ++ tsParam "start_date" (dateToTimestamp f.startDate) 0
      ++ tsParam "end_date" (dateToTimestamp f.endDate) 86400
      ++ [("limit", toString postsPerPage)]
      ++ (if ¬resetPage ∧ currentPage > 1 then
            [("offset", toString ((currentPage - 1) * postsPerPage))] else [])
      ++ [("sort_by", sc.key), ("order", sc.direction)]
      ++ (if so.searchMethod = "live" then [("live", "true")] else []))

/-- First value bound to a key in a parameter list (`URLSearchParams.get`). -/
def getParam : List (String × String) → String → Option String
  | [], _ => none
  | (k, v) :: rest, key => if k = key then some v else getParam rest key

@[simp] theorem getParam_nil (key : String) : getParam [] key = none := rfl

@[simp] theorem getParam_cons (k v : String) (rest : List (String × String)) (key : String) :
    getParam ((k, v) :: rest) key = if k = key then some v else getParam rest key := rfl

@[simp] theorem getParam_append (xs ys : List (String × String)) (key : String) :
    getParam (xs ++ ys) key =
      match getParam xs key with
      | some v => some v
      | none => getParam ys key := by
  induction xs with
  | nil => simp
  | cons hd tl ih =>
    obtain ⟨k, v⟩ := hd
    by_cases h : k = key <;> simp [h, ih]

@[simp] theorem getParam_strParam (k v key : String) :
    getParam (strParam k v) key =
      if v ≠ "" ∧ k = key then some v else none := by
  unfold strParam
  by_cases hv : v = "" <;> by_cases hk : k = key <;> simp [hv, hk]

@[simp] theorem getParam_tsParam (k : String) (t? : Option Int) (shift : Int) (key : String) :
    getParam (tsParam k t? shift) key =
      match t? with
      | some t => if t ≠ 0 ∧ k = key then some (toString (t + shift)) else none
      | none => none := by
  cases t? with
  | none => rfl
  | some t =>
    unfold tsParam
    by_cases ht : t = 0 <;> by_cases hk : k = key <;> simp [ht, hk]

/-- The slice of App.js component state that the result reconciler
(lines 352-364 of `fetchPosts`) reads and writes. -/
structure DashState where
  posts : List Post := []
  filteredPosts : List Post := []
  currentPage : Nat := 1
  hasMore : Bool := true
  totalPosts : Nat := 0
deriving DecidableEq, Repr

/-- The state application performed by `fetchPosts` when a response `data`
arrives (App.js lines 352-364): `resetPage = true` replaces the collection
and resets the page counter to 1; `resetPage = false` concatenates the
response and increments the page counter; both recompute
`hasMore = (data.length === postsPerPage)` and set
`totalPosts = data.length`. -/
def applyResponse (resetPage : Bool) (data : List Post) (s : DashState)
    (postsPerPage : Nat) : DashState :=
  if resetPage then
    { posts := data
      filteredPosts := data
      currentPage := 1
      hasMore := data.length == postsPerPage
      totalPosts := data.length }
  else
    { posts := s.posts ++ data
      filteredPosts := s.filteredPosts ++ data
      currentPage := s.currentPage + 1
      hasMore := data.length == postsPerPage
      totalPosts := data.length }

/-- Responses of overlapping primary (`resetPage = true`) fetches are applied
in arrival order: `fetchPosts` installs each response into component state
the moment it resolves, with no request-sequence guard anywhere in App.js. -/
def raceApply (arrivals : List (List Post)) (s : DashState)
    (postsPerPage : Nat) : DashState :=
  arrivals.foldl (fun st data => applyResponse true data st postsPerPage) s

/-- Outcome of one `fetch` attempt inside `enhancedFetch`, as observed by the
surrounding retry loop.  `retryAfter` is the parsed `Retry-After` header
(`none` when the header is absent). -/
inductive AttemptOutcome where
  | ok (data : List Post)
  | http (status : Nat) (retryAfter : Option Nat)
  | netErr
  | timeoutAbort
deriving DecidableEq, Repr

/-- The failure `enhancedFetch` surfaces to its caller.  `undef` is the
`throw lastError` after the loop when `lastError` was never assigned (every
attempt was a 429). -/
inductive FetchFailure where
  | timeout
  | http (status : Nat)
  | network
  | undef
deriving DecidableEq, Repr

/-- Observable behaviour of one `enhancedFetch` call: its result, the
milliseconds slept (in order: 429 waits and exponential-backoff waits), and
the number of `fetch` attempts actually issued. -/
structure FetchTrace where
  result : Except FetchFailure (List Post)
  sleeps : List Nat
  attempts : Nat
deriving Repr

/-- `retryAfter ? parseInt(retryAfter) * 1000 : 5000` (App.js line 222). -/
def waitTime429 : Option Nat → Nat
  | some n => n * 1000
  | none => 5000

/-- The retry loop of `enhancedFetch` (App.js lines 195-246).  `outcomes i`
is what the `i`-th issued `fetch` does; `attempt` is the loop counter,
`remaining = retries - attempt` the iterations left (the loop runs while
`attempt < retries`).  A 429 sleeps `waitTime429` then `continue`s (which
still advances `attempt`); another non-2xx or a network error records
`lastError` and sleeps `1000 * 2^attempt` when `attempt < retries - 1`; an
abort (timeout) is rethrown immediately; loop exhaustion throws `lastError`. -/
def fetchGo (outcomes : Nat → AttemptOutcome) (retries : Nat) :
    Nat → Nat → Option FetchFailure → List Nat → FetchTrace
  | attempt, 0, lastError, sleeps =>
    { result := .error (match lastError with | some e => e | none => .undef)
      sleeps := sleeps
      attempts := attempt }
  | attempt, remaining + 1, lastError, sleeps =>
    match outcomes attempt with
    | .ok data => { result := .ok data, sleeps := sleeps, attempts := attempt + 1 }
    | .http 429 retryAfter =>
      fetchGo outcomes retries (attempt + 1) remaining lastError
        (sleeps ++ [waitTime429 retryAfter])
    | .http status _ =>
      fetchGo outcomes retries (attempt + 1) remaining (some (.http status))
        (if attempt < retries - 1 then sleeps ++ [1000 * 2 ^ attempt] else sleeps)
    | .netErr =>
      fetchGo outcomes retries (attempt + 1) remaining (some .network)
        (if attempt < retries - 1 then sleeps ++ [1000 * 2 ^ attempt] else sleeps)
    | .timeoutAbort =>
      { result := .error .timeout, sleeps := sleeps, attempts := attempt + 1 }

/-- `enhancedFetch(url, options, retries = 3, timeout = 10000)` (App.js line
192), abstracted over the per-attempt outcomes. -/
def enhancedFetch (outcomes : Nat → AttemptOutcome) (retries : Nat := 3) : FetchTrace :=
  fetchGo outcomes retries 0 retries none []

example :
    enhancedFetch (fun i => if i < 3 then .http 429 none else .ok [{ id := 7 }]) 3 =
      { result := .error .undef, sleeps := [5000, 5000, 5000], attempts := 3 } := rfl

example :
    enhancedFetch (fun i => if i = 0 then .http 429 (some 2) else .ok []) 3 =
      { result := .ok [], sleeps := [2000], attempts := 2 } := rfl

example : parseDateString "2024-01-01" = some 1704067200 := rfl
example : parseDateString "2024-01-02" = some 1704153600 := rfl
example : parseDateString "1970-01-01" = some 0 := rfl
example : parseDateString "not-a-date" = none := rfl

/-- A displayed statistic value: the `'N/A'` string, an IEEE `NaN` (what a
zero divisor would produce), or an ordinary number.  The `toFixed` display
rounding is presentation-only and is not modelled; the exact rational is
kept. -/
inductive JsDisplay where
  | na
  | nan
  | num (q : ℚ)
deriving DecidableEq, Repr

/-- JavaScript division as it appears in `statsData`: a zero divisor yields
`NaN` (the numerators there are finite sums), otherwise the exact quotient. -/
def jsDiv (a b : ℚ) : JsDisplay :=
  if b = 0 then .nan else .num (a / b)

/-- The `sentimentBreakdown` object of `statsData`.  The percent fields are
absent (`none`) in the early-return record for an empty collection. -/
structure SentimentBreakdown where
  positive : Nat
  neutral : Nat
  negative : Nat
  positivePercent : Option JsDisplay
  neutralPercent : Option JsDisplay
  negativePercent : Option JsDisplay
deriving DecidableEq, Repr

/-- The record `statsData` evaluates to (App.js lines 891-936).
`topSubreddits` is absent (`none`) in the early-return record. -/
structure StatsData where
  totalPosts : Nat
  avgScore : JsDisplay
  avgComments : JsDisplay
  avgSentiment : JsDisplay
  sentimentBreakdown : SentimentBreakdown
  topSubreddits : Option (List (String × Nat))
deriving DecidableEq, Repr

/-- One step of the `subredditCounts` accumulation:
`subredditCounts[s] = (subredditCounts[s] || 0) + 1` on a JS object keeps
first-insertion key order, modelled as an in-place bump on an
association list. -/
def bumpCount : List (String × Nat) → String → List (String × Nat)
  | [], key => [(key, 1)]
  | (k, n) :: rest, key =>
    if k = key then (k, n + 1) :: rest else (k, n) :: bumpCount rest key

/-- Per-subreddit post frequencies in first-appearance order (App.js lines
910-914); an empty `subreddit` field counts under `"unknown"`. -/
def subredditCounts (posts : List Post) : List (String × Nat) :=
  posts.foldl
    (fun acc p => bumpCount acc (if p.subreddit ≠ "" then p.subreddit else "unknown")) []

/-- Insert `x` into a sorted list, before the first element it must precede
(`le x y`); equal elements keep the earlier-inserted one in front. -/
def stableInsert (le : α → α → Bool) (x : α) : List α → List α
  | [] => [x]
  | y :: ys => if le x y then x :: y :: ys else y :: stableInsert le x ys

/-- Stable insertion sort.  `Array.prototype.sort` is stable, and a stable
sort under the total preorders used here has a unique result, so this models
the JS sort exactly. -/
def stableSort (le : α → α → Bool) : List α → List α
  | [] => []
  | x :: xs => stableInsert le x (stableSort le xs)

/-- `statsData` (App.js lines 891-936): early-returns a fixed record for an
empty collection, otherwise averages, three-bucket sentiment counts and
percentages, and the top-5 subreddits sorted by descending count. -/
def statsData (filteredPosts : List Post) : StatsData :=
  if filteredPosts.length = 0 then
    { totalPosts := 0
      avgScore := .na
      avgComments := .na
      avgSentiment := .na
      sentimentBreakdown :=
        { positive := 0, neutral := 0, negative := 0
          positivePercent := none, neutralPercent := none, negativePercent := none }
      topSubreddits := none }
  else
    let total : ℚ := filteredPosts.length
    let positive := (filteredPosts.filter (fun p => p.sentiment_compound > 0.05)).length
    let neutral := (filteredPosts.filter
      (fun p => -0.05 ≤ p.sentiment_compound ∧ p.sentiment_compound ≤ 0.05)).length
    let negative := (filteredPosts.filter (fun p => p.sentiment_compound < -0.05)).length
    { totalPosts := filteredPosts.length
      avgScore := jsDiv (filteredPosts.map Post.score).sum total
      avgComments := jsDiv (filteredPosts.map Post.num_comments).sum total
      avgSentiment := jsDiv (filteredPosts.map Post.sentiment_compound).sum total
      sentimentBreakdown :=
        { positive := positive
          neutral := neutral
          negative := negative
          positivePercent := some (jsDiv ((positive : ℚ) * 100) total)
          neutralPercent := some (jsDiv ((neutral : ℚ) * 100) total)
          negativePercent := some (jsDiv ((negative : ℚ) * 100) total) }
      topSubreddits :=
        some ((stableSort (fun x y => y.2 ≤ x.2) (subredditCounts filteredPosts)).take 5) }

/-- Lexicographic strict order on character lists by code point; together
with equality this models `localeCompare` on the ASCII strings the dashboard
handles. -/
def lexLtChars : List Char → List Char → Bool
  | [], [] => false
  | [], _ :: _ => true
  | _ :: _, [] => false
  | a :: as, b :: bs =>
    if a.toNat < b.toNat then true
    else if b.toNat < a.toNat then false
    else lexLtChars as bs

/-- `x.localeCompare(y)` modelled as the sign of the lexicographic
comparison. -/
def localeCmp (x y : List Char) : Int :=
  if lexLtChars x y then -1 else if lexLtChars y x then 1 else 0

/-- `(a[key] || '').toLowerCase()` for the three string sort keys, as a
character list. -/
def strValue (p : Post) (key : String) : List Char :=
  (if key = "title" then p.title
   else if key = "subreddit" then p.subreddit
   else if key = "author" then p.author
   else "").toList.map Char.toLower

/-- `a[key] || 0` for the numeric sort keys: a key outside the `Post` shape
reads `undefined` and coerces to `0`. -/
def numValue (p : Post) (key : String) : ℚ :=
  if key = "score" then p.score
  else if key = "num_comments" then p.num_comments
  else if key = "created_utc" then p.created_utc
  else if key = "upvote_ratio" then p.upvote_ratio
  else if key = "sentiment_compound" then p.sentiment_compound
  else if key = "sentiment_pos" then p.sentiment_pos
  else if key = "sentiment_neu" then p.sentiment_neu
  else if key = "sentiment_neg" then p.sentiment_neg
  else 0

/-- The comparator passed to `.sort` inside `requestSort` (App.js lines
670-685): case-insensitive locale comparison for `title`/`subreddit`/
`author`, numeric difference otherwise, with `direction` flipping the
operand order. -/
def sortComparator (key direction : String) (a b : Post) : ℚ :=
  if key = "title" ∨ key = "subreddit" ∨ key = "author" then
    ((if direction = "asc" then localeCmp (strValue a key) (strValue b key)
      else localeCmp (strValue b key) (strValue a key) : Int) : ℚ)
  else
    (if direction = "asc" then numValue a key - numValue b key
     else numValue b key - numValue a key)

/-- `[...prevPosts].sort(comparator)`: a stable sort of a copy of the held
collection. -/
def jsSortPosts (key direction : String) (posts : List Post) : List Post :=
  stableSort (fun a b => sortComparator key direction a b ≤ 0) posts

/-- What one `requestSort(key)` call leaves behind. -/
structure SortOutcome where
  sortConfig : SortConfig
  filteredPosts : List Post
  refetched : Bool
deriving DecidableEq, Repr

/-- `requestSort` (App.js lines 658-689).  The functional `setSortConfig`
update computes the new key/direction; the non-live branch refetches
(`fetchPosts(true, filters)`); the live branch sorts in memory — reading
`sortConfig.direction` from the enclosing render's closure, i.e. the
**previous** direction, while the new key comes from the `key` argument. -/
def requestSort (isLiveSearch : Bool) (key : String) (sortConfig : SortConfig)
    (filteredPosts : List Post) : SortOutcome :=
  let newConfig : SortConfig :=
    if sortConfig.key = key ∧ sortConfig.direction = "asc" then
      { key := key, direction := "desc" }
    else
      { key := key, direction := "asc" }
  if ¬isLiveSearch then
    { sortConfig := newConfig, filteredPosts := filteredPosts, refetched := true }
  else
    { sortConfig := newConfig
      filteredPosts := jsSortPosts key sortConfig.direction filteredPosts
      refetched := false }

/-- The four field names the numeric-input guard applies to (App.js
line 544). -/
def numericFilterNames : List String :=
  ["minScore", "maxScore", "minComments", "maxComments"]

/-- The regex test `/^-?\d*$/.test(value)` together with the `value === ''`
escape: empty, or an optional leading minus followed by zero or more
digits. -/
def numericInputOk (v : String) : Bool :=
  v = "" ||
    (match v.toList with
     | '-' :: rest => rest.all Char.isDigit
     | cs => cs.all Char.isDigit)

/-- `setFilters(prev => ({...prev, [name]: value}))` restricted to the known
filter fields. -/
def setFilterField (f : FilterState) (name value : String) : FilterState :=
  if name = "minScore" then { f with minScore := value }
  else if name = "maxScore" then { f with maxScore := value }
  else if name = "minComments" then { f with minComments := value }
  else if name = "maxComments" then { f with maxComments := value }
  else if name = "sentiment" then { f with sentiment := value }
  else if name = "searchTerm" then { f with searchTerm := value }
  else if name = "startDate" then { f with startDate := value }
  else if name = "endDate" then { f with endDate := value }
  else if name = "subreddit" then { f with subreddit := value }
  else f

/-- `handleFilterChange` (App.js lines 540-552): numeric fields accept the
keystroke only when `numericInputOk` holds; every other field is written
unconditionally. -/
def handleFilterChange (e : String × String) (f : FilterState) : FilterState :=
  if numericFilterNames.contains e.1 then
    (if numericInputOk e.2 then setFilterField f e.1 e.2 else f)
  else
    setFilterField f e.1 e.2

/-- A whole session of input events folded over the filter state. -/
def applyFilterEvents (events : List (String × String)) (f : FilterState) : FilterState :=
  events.foldl (fun st e => handleFilterChange e st) f

/-- The initial `filters` state (App.js lines 78-88): every field empty. -/
def initialFilters : FilterState := {}

/-- The spec's "parses as an integer" on an input-field string: an optional
minus sign followed by at least one digit. -/
def parsesAsInt (v : String) : Bool :=
  match v.toList with
  | [] => false
  | '-' :: rest => rest ≠ [] && rest.all Char.isDigit
  | cs => cs.all Char.isDigit

/-! ## Sample data shared by witnesses and counterexamples -/

def samplePost1 : Post := { id := 1, title := "A", score := 1 }

def samplePost2 : Post := { id := 2, title := "B", score := 2 }

/-! ## Claim theorems -/

/-- C6: applying the same response twice with `mode=Reset` yields the same
final collection as applying it once (no duplication), with the page counter
equal to 1 and `hasMore` recomputed identically each time as
`response.length == requestedPageSize`. -/
theorem reset_idempotent (data : List Post) (s : DashState) (pp : Nat) :
    applyResponse true data (applyResponse true data s pp) pp
      = applyResponse true data s pp ∧
    (applyResponse true data s pp).currentPage = 1 ∧
    (applyResponse true data s pp).hasMore = (data.length == pp) := by
  simp [applyResponse]

/-- C7: `Append` concatenates the response at the end of the existing
collection (hence never decreases the length and never reorders the
previously-held items), increments the page counter, and recomputes
`hasMore` as `response.length == requestedPageSize`. -/
theorem append_monotone (s : DashState) (data : List Post) (pp : Nat) :
    (applyResponse false data s pp).posts = s.posts ++ data ∧
    s.posts.length ≤ (applyResponse false data s pp).posts.length ∧
    (applyResponse false data s pp).currentPage = s.currentPage + 1 ∧
    (applyResponse false data s pp).hasMore = (data.length == pp) := by
  simp [applyResponse]

/-- C10: `Append` adds exactly `response.length` items and deduplicates
nothing: for every id, the number of entries carrying that id in the result
is the sum of its occurrences in the held collection and in the response, so
an overlapping server page yields duplicate-id entries. -/
theorem append_no_dedup (s : DashState) (data : List Post) (pp : Nat) :
    (applyResponse false data s pp).posts.length = s.posts.length + data.length ∧
    ∀ pid : Nat,
      (applyResponse false data s pp).posts.countP (fun p => p.id == pid) =
        s.posts.countP (fun p => p.id == pid) + data.countP (fun p => p.id == pid) := by
  simp [applyResponse, List.countP_append]

/-- C1 counterexample: with R2's reset response `[samplePost2]` arriving
first and the superseded R1's reset response `[samplePost1]` arriving after
it, `fetchPosts` applies both in arrival order; the final collection is R1's
`[samplePost1]`, not R2's — the superseded response is applied, not
ignored. -/
theorem race_guard_counterexample :
    (raceApply [[samplePost2], [samplePost1]] {} 10).posts = [samplePost1] ∧
    (raceApply [[samplePost2], [samplePost1]] {} 10).posts ≠ [samplePost2] := by
  constructor
  · rfl
  · simp [raceApply, applyResponse, samplePost1, samplePost2]

/-- C1 amended: App.js has no request-sequence guard; responses are applied
in arrival order, so the final posts collection, page counter and `hasMore`
flag reflect whichever reset response arrived **last** (here R1), the
superseded-but-later response overwriting the newer request's state. -/
theorem race_last_arrival_wins (s : DashState) (pp : Nat) (d1 d2 : List Post) :
    raceApply [d2, d1] s pp = applyResponse true d1 s pp ∧
    (raceApply [d2, d1] s pp).posts = d1 ∧
    (raceApply [d2, d1] s pp).currentPage = 1 ∧
    (raceApply [d2, d1] s pp).hasMore = (d1.length == pp) := by
  simp [raceApply, applyResponse]

/-- Helper: when every attempt returns HTTP 429 with no `Retry-After`
header, the loop sleeps 5000 ms per iteration, burns through all remaining
iterations, and exits with `lastError` still unset. -/
theorem fetchGo_all_429 (f : Nat → AttemptOutcome) (hf : ∀ i, f i = .http 429 none)
    (R : Nat) : ∀ (r a : Nat) (sleeps : List Nat),
    fetchGo f R a r none sleeps =
      { result := .error .undef
        sleeps := sleeps ++ List.replicate r 5000
        attempts := a + r } := by
  intro r
  induction r with
  | zero => intro a sleeps; simp [fetchGo]
  | succ n ih =>
    intro a sleeps
    rw [fetchGo, hf a]
    simp only [waitTime429, ih (a + 1) (sleeps ++ [5000]), List.append_assoc,
      List.replicate_succ, List.singleton_append]
    congr 1
    omega

/-- Helper: one successful attempt ends the loop with the data and no
further sleeps. -/
theorem fetchGo_ok_step (f : Nat → AttemptOutcome) (R a r : Nat)
    (lastError : Option FetchFailure) (sleeps : List Nat) (d : List Post)
    (h : f a = .ok d) :
    fetchGo f R a (r + 1) lastError sleeps =
      { result := .ok d, sleeps := sleeps, attempts := a + 1 } := by
  rw [fetchGo, h]

/-- Helper: one 429 attempt sleeps its `Retry-After` wait and continues the
loop with the counter advanced — i.e. with one fewer iteration left. -/
theorem fetchGo_429_step (f : Nat → AttemptOutcome) (R a r : Nat)
    (lastError : Option FetchFailure) (sleeps : List Nat) (ra : Option Nat)
    (h : f a = .http 429 ra) :
    fetchGo f R a (r + 1) lastError sleeps =
      fetchGo f R (a + 1) r lastError (sleeps ++ [waitTime429 ra]) := by
  rw [fetchGo, h]

/-- C2 counterexample: three HTTP 429 responses in a row (no `Retry-After`
header), with a successful response waiting at the fourth attempt.  Each 429
sleeps the default 5000 ms but `continue` still advances the loop counter,
so with `retries = 3` the budget is exhausted after the three 429s: the call
fails (throwing the never-assigned `lastError`) and the fourth attempt is
never issued — a 429-delayed re-attempt does consume a retry slot. -/
theorem rate_limit_counterexample :
    enhancedFetch (fun i => if i < 3 then .http 429 none else .ok [samplePost1]) 3 =
      { result := .error .undef, sleeps := [5000, 5000, 5000], attempts := 3 } := rfl

/-- C2 amended: on HTTP 429 the engine sleeps for the `Retry-After` hint in
seconds (5 s when the header is absent) and then re-attempts, but the
re-attempt **consumes one of the `retries` (default 3) total attempt
slots** — the same budget that other transient failures draw from: a single
429 followed by success costs exactly two attempts with one `Retry-After`
sleep, and `retries` consecutive 429s exhaust the whole budget and fail. -/
theorem rate_limit_budget :
    (∀ (f : Nat → AttemptOutcome) (ra : Option Nat) (d : List Post) (r : Nat),
      f 0 = .http 429 ra → f 1 = .ok d → 2 ≤ r →
      enhancedFetch f r =
        { result := .ok d, sleeps := [waitTime429 ra], attempts := 2 }) ∧
    (∀ (f : Nat → AttemptOutcome) (r : Nat), (∀ i, f i = .http 429 none) →
      enhancedFetch f r =
        { result := .error .undef, sleeps := List.replicate r 5000, attempts := r }) := by
  constructor
  · intro f ra d r h0 h1 hr
    obtain ⟨k, rfl⟩ : ∃ k, r = k + 2 := ⟨r - 2, by omega⟩
    exact (fetchGo_429_step f (k + 2) 0 (k + 1) none [] ra h0).trans
      (fetchGo_ok_step f (k + 2) 1 k none [waitTime429 ra] d h1)
  · intro f r hf
    have h := fetchGo_all_429 f hf r r 0 []
    simpa [enhancedFetch] using h

/-- Witness for `rate_limit_budget`: a 429 with `Retry-After: 2` followed by
success sleeps exactly 2000 ms and uses two attempts; three straight 429s
exhaust a budget of three. -/
theorem rate_limit_budget_witness :
    enhancedFetch (fun i => if i = 0 then .http 429 (some 2) else .ok []) 3 =
      { result := .ok [], sleeps := [2000], attempts := 2 } ∧
    enhancedFetch (fun _ => .http 429 none) 3 =
      { result := .error .undef, sleeps := List.replicate 3 5000, attempts := 3 } := by
  constructor
  · exact rate_limit_budget.1 _ (some 2) [] 3 rfl rfl (by omega)
  · exact rate_limit_budget.2 _ 3 (fun _ => rfl)

/-- C4: the built request targets the live `/search` endpoint with
`q = searchTerm` exactly when the search term is non-empty and
`searchMethod = 'live'`; in every other case it targets the listing `/posts`
endpoint, never emits `q`, and passes a present search term as the `search`
parameter. -/
theorem endpoint_selection (f : FilterState) (so : SearchOptions) (sc : SortConfig)
    (resetPage : Bool) (page pp : Nat) :
    (f.searchTerm ≠ "" ∧ so.searchMethod = "live" →
      (buildRequest f so sc resetPage page pp).1 = Endpoint.search ∧
      getParam (buildRequest f so sc resetPage page pp).2 "q" = some f.searchTerm ∧
      getParam (buildRequest f so sc resetPage page pp).2 "search" = none) ∧
    (¬(f.searchTerm ≠ "" ∧ so.searchMethod = "live") →
      (buildRequest f so sc resetPage page pp).1 = Endpoint.posts ∧
      getParam (buildRequest f so sc resetPage page pp).2 "q" = none ∧
      getParam (buildRequest f so sc resetPage page pp).2 "search" =
        (if f.searchTerm ≠ "" then some f.searchTerm else none)) := by
  constructor
  · intro h
    refine ⟨by simp [buildRequest, h], ?_, ?_⟩ <;>
      simp [buildRequest, h] <;> split_ifs <;> simp
  · intro h
    refine ⟨by simp [buildRequest, h], ?_, ?_⟩ <;>
      simp [buildRequest, h] <;>
        rcases dateToTimestamp f.startDate with _ | ts <;>
          rcases dateToTimestamp f.endDate with _ | te <;>
            simp <;> split_ifs <;> simp

def sampleLiveFilters : FilterState := { searchTerm := "cats" }

def sampleLiveOptions : SearchOptions := { searchMethod := "live" }

/-- Witness for `endpoint_selection`: a live search for "cats" targets
`/search` with `q=cats`, while the same term under `searchMethod='database'`
targets `/posts` with `search=cats` and no `q`. -/
theorem endpoint_selection_witness :
    ((buildRequest sampleLiveFilters sampleLiveOptions {} true 1 10).1 = Endpoint.search ∧
      getParam (buildRequest sampleLiveFilters sampleLiveOptions {} true 1 10).2 "q" =
        some "cats") ∧
    ((buildRequest sampleLiveFilters {} {} true 1 10).1 = Endpoint.posts ∧
      getParam (buildRequest sampleLiveFilters {} {} true 1 10).2 "q" = none ∧
      getParam (buildRequest sampleLiveFilters {} {} true 1 10).2 "search" = some "cats") := by
  constructor
  · have h := (endpoint_selection sampleLiveFilters sampleLiveOptions {} true 1 10).1
      (by constructor <;> decide)
    exact ⟨h.1, h.2.1⟩
  · have h := (endpoint_selection sampleLiveFilters {} {} true 1 10).2
      (by intro hc; exact absurd hc.2 (by decide))
    exact ⟨h.1, h.2.1, h.2.2.trans (by decide)⟩

def epochEndFilters : FilterState := { endDate := "1970-01-01" }

/-- C5 counterexample: `endDate = "1970-01-01"` is a parsable date (its
UTC-midnight timestamp is `0`), yet the listing query omits `end_date`
entirely — `if (endTs)` treats the numeric timestamp `0` as falsy — where
the claim requires `end_date = 0 + 86400`. -/
theorem end_date_epoch_counterexample :
    dateToTimestamp "1970-01-01" = some 0 ∧
    (buildRequest epochEndFilters {} {} true 1 10).1 = Endpoint.posts ∧
    getParam (buildRequest epochEndFilters {} {} true 1 10).2 "end_date" = none := by
  refine ⟨rfl, rfl, rfl⟩

/-- C5 amended: for every listing query, `end_date` is emitted exactly when
the end date parses to a **nonzero** UTC-midnight timestamp `t`, with value
`t + 86400` (so `endDate='2024-01-01'` yields the Unix time of
`2024-01-02T00:00:00Z`); `start_date` behaves the same without the shift;
an invalid or unparsable bound is omitted rather than erroring, and so is
the parsable-but-zero-timestamp date `1970-01-01` (JS number truthiness). -/
theorem end_date_inclusive (f : FilterState) (so : SearchOptions) (sc : SortConfig)
    (resetPage : Bool) (page pp : Nat)
    (h : ¬(f.searchTerm ≠ "" ∧ so.searchMethod = "live")) :
    getParam (buildRequest f so sc resetPage page pp).2 "end_date" =
      (match dateToTimestamp f.endDate with
       | some t => if t ≠ 0 then some (toString (t + 86400)) else none
       | none => none) ∧
    getParam (buildRequest f so sc resetPage page pp).2 "start_date" =
      (match dateToTimestamp f.startDate with
       | some t => if t ≠ 0 then some (toString t) else none
       | none => none) ∧
    dateToTimestamp "2024-01-01" = some 1704067200 ∧
    dateToTimestamp "2024-01-02" = some 1704153600 ∧
    (1704067200 : Int) + 86400 = 1704153600 := by
  refine ⟨?_, ?_, rfl, rfl, rfl⟩ <;>
    simp [buildRequest, h] <;>
      rcases dateToTimestamp f.startDate with _ | ts <;>
        rcases dateToTimestamp f.endDate with _ | te <;>
          simp <;> split_ifs <;> simp_all

def sampleDateFilters : FilterState := { startDate := "2024-01-01", endDate := "2024-01-01" }

/-- Witness for `end_date_inclusive`: with both bounds set to `2024-01-01`
the listing query carries `start_date=1704067200` (midnight of the day) and
`end_date=1704153600` (midnight plus 86400, i.e. `2024-01-02T00:00:00Z`). -/
theorem end_date_inclusive_witness :
    getParam (buildRequest sampleDateFilters {} {} true 1 10).2 "end_date" =
      some "1704153600" ∧
    getParam (buildRequest sampleDateFilters {} {} true 1 10).2 "start_date" =
      some "1704067200" := by
  have h := end_date_inclusive sampleDateFilters {} {} true 1 10
    (by intro hc; exact absurd hc.2 (by decide))
  exact ⟨h.1.trans (by decide), h.2.1.trans (by decide)⟩

/-- C8: on the empty collection `statsData` early-returns `'N/A'` for every
average field and `0` for every count field; on every collection no average
or percentage field is ever `NaN` — the division by the collection size is
reached only when the size is nonzero. -/
theorem stats_empty_no_nan :
    statsData [] =
      { totalPosts := 0
        avgScore := .na
        avgComments := .na
        avgSentiment := .na
        sentimentBreakdown :=
          { positive := 0, neutral := 0, negative := 0
            positivePercent := none, neutralPercent := none, negativePercent := none }
        topSubreddits := none } ∧
    ∀ ps : List Post,
      (statsData ps).avgScore ≠ .nan ∧
      (statsData ps).avgComments ≠ .nan ∧
      (statsData ps).avgSentiment ≠ .nan ∧
      (statsData ps).sentimentBreakdown.positivePercent ≠ some .nan ∧
      (statsData ps).sentimentBreakdown.neutralPercent ≠ some .nan ∧
      (statsData ps).sentimentBreakdown.negativePercent ≠ some .nan := by
  refine ⟨rfl, fun ps => ?_⟩
  by_cases h : ps.length = 0
  · simp [statsData, h]
  · have hq : (ps.length : ℚ) ≠ 0 := by exact_mod_cast h
    simp [statsData, h, jsDiv, hq]

/-- The pattern the numeric-input guard actually maintains on each of the
four numeric filter fields. -/
def numericFieldsOk (f : FilterState) : Prop :=
  numericInputOk f.minScore = true ∧ numericInputOk f.maxScore = true ∧
  numericInputOk f.minComments = true ∧ numericInputOk f.maxComments = true

/-- Helper: a single `handleFilterChange` event preserves `numericFieldsOk`. -/
theorem handleFilterChange_preserves (e : String × String) (f : FilterState)
    (hf : numericFieldsOk f) : numericFieldsOk (handleFilterChange e f) := by
  obtain ⟨name, value⟩ := e
  unfold handleFilterChange
  by_cases hn : numericFilterNames.contains name = true
  · simp only [hn, if_true]
    by_cases hv : numericInputOk value = true
    · simp only [hv, if_true]
      have : name = "minScore" ∨ name = "maxScore" ∨
          name = "minComments" ∨ name = "maxComments" := by
        simpa [numericFilterNames] using hn
      rcases this with rfl | rfl | rfl | rfl <;>
        simp_all [setFilterField, numericFieldsOk]
    · simp only [hv]
      simpa using hf
  · simp only [hn]
    have hne : name ≠ "minScore" ∧ name ≠ "maxScore" ∧
        name ≠ "minComments" ∧ name ≠ "maxComments" := by
      simpa [numericFilterNames, not_or] using hn
    obtain ⟨h1, h2, h3, h4⟩ := hne
    unfold setFilterField
    split_ifs <;> simp_all [numericFieldsOk]

/-- C9 counterexample: the keystroke value `"-"` passes the guard
`/^-?\d*$/` and is stored, yet `"-"` is neither the empty string nor a
string that parses as an integer — the claimed invariant fails on a
reachable state. -/
theorem numeric_filter_dash_counterexample :
    (applyFilterEvents [("minScore", "-")] initialFilters).minScore = "-" ∧
    ¬("-" = "" ∨ parsesAsInt "-" = true) := by
  exact ⟨rfl, by decide⟩

/-- C9 amended: after every sequence of keystroke events each numeric filter
field matches `^-?\d*$` — empty, or an optional minus followed by digits
(the lone `"-"` typed on the way to a negative number is accepted, though it
does not yet parse as an integer) — and a keystroke whose value falls
outside that pattern leaves the filter state unchanged. -/
theorem numeric_filter_invariant (events : List (String × String)) :
    numericFieldsOk (applyFilterEvents events initialFilters) ∧
    ∀ (name value : String) (f : FilterState),
      numericFilterNames.contains name = true → numericInputOk value = false →
      handleFilterChange (name, value) f = f := by
  constructor
  · have base : numericFieldsOk initialFilters := by
      refine ⟨rfl, rfl, rfl, rfl⟩
    have : ∀ (es : List (String × String)) (f : FilterState), numericFieldsOk f →
        numericFieldsOk (applyFilterEvents es f) := by
      intro es
      induction es with
      | nil => intro f hf; exact hf
      | cons e rest ih =>
        intro f hf
        exact ih _ (handleFilterChange_preserves e f hf)
    exact this events initialFilters base
  · intro name value f hn hv
    simp only [handleFilterChange, hn, hv, if_true, Bool.false_eq_true, if_false]

/-- Witness for `numeric_filter_invariant`: a session typing `-`, `-5`
into `minScore` and an unrelated subreddit edit keeps all four numeric
fields inside the pattern, and the invalid keystroke `1.5` is rejected
outright. -/
theorem numeric_filter_invariant_witness :
    numericFieldsOk (applyFilterEvents
      [("minScore", "-"), ("minScore", "-5"), ("subreddit", "news")] initialFilters) ∧
    handleFilterChange ("minScore", "1.5") initialFilters = initialFilters := by
  constructor
  · exact (numeric_filter_invariant
      [("minScore", "-"), ("minScore", "-5"), ("subreddit", "news")]).1
  · exact (numeric_filter_invariant []).2 "minScore" "1.5" initialFilters (by decide) (by decide)

/-- C3 (code bug): a live-search re-sort on `score` from
`{key:'score', direction:'asc'}` installs the toggled config
`{key:'score', direction:'desc'}` and performs no refetch, but the in-memory
sort reads the stale closed-over `sortConfig.direction` (`'asc'`), so the
displayed collection stays `[samplePost1, samplePost2]` (ascending by score)
— while a sort under the newly selected `'desc'` direction would be
`[samplePost2, samplePost1]`. -/
theorem live_sort_stale_direction :
    requestSort true "score" { key := "score", direction := "asc" }
        [samplePost1, samplePost2] =
      { sortConfig := { key := "score", direction := "desc" }
        filteredPosts := [samplePost1, samplePost2]
        refetched := false } ∧
    jsSortPosts "score" "desc" [samplePost1, samplePost2] =
      [samplePost2, samplePost1] := by
  constructor <;>
    · norm_num [requestSort, jsSortPosts, stableSort, stableInsert, sortComparator,
        numValue, samplePost1, samplePost2]
      simp
